import Mathlib

set_option maxRecDepth 4000

-- Verification of the cycle-synchronized logging barrier and the periodic
-- worker loops of the zephyr-OS demo repository.  The barrier function
-- sync_log_complete_cycle is textually identical in
-- src/simple_thread/src/main.c (lines 26-34) and src/thread_1/src/main.c
-- (lines 56-64); it is embedded once, as a small statement tree whose
-- atomic steps mirror the kernel primitives the C code invokes.

/-- Atomic steps of the barrier code: `atomicInc` is `atomic_inc(&sync_counter)`,
`ifCountGe n t` is `if (atomic_get(&sync_counter) >= n) { t }` (one atomic read
followed by the comparison), `lock`/`unlock` are `k_mutex_lock`/`k_mutex_unlock`
on `sync_mutex`, `atomicSet v` is `atomic_set(&sync_counter, v)`, and `emitSep`
is the `printk("\n")` separator write. -/
inductive Stmt where
  | atomicInc : Stmt
  | lock : Stmt
  | unlock : Stmt
  | atomicSet : Nat → Stmt
  | emitSep : Stmt
  | ifCountGe : Nat → Stmt → Stmt
  | seq : Stmt → Stmt → Stmt
deriving DecidableEq, Repr

/-- The body of `sync_log_complete_cycle` as written in both main.c files:
increment the counter; if the counter now reads at least 3, take the mutex,
set the counter to 0, print the separator, release the mutex. -/
def sync_log_complete_cycle : Stmt :=
  Stmt.seq Stmt.atomicInc
    (Stmt.ifCountGe 3
      (Stmt.seq Stmt.lock
        (Stmt.seq (Stmt.atomicSet 0)
          (Stmt.seq Stmt.emitSep Stmt.unlock))))

/-- Barrier-visible state for sequential executions: the value of
`sync_counter`, the number of separator writes issued to the sink, and the
number of those writes the sink accepted. -/
structure BarrierState where
  count : Nat
  emits : Nat
  delivered : Nat
deriving DecidableEq, Repr

/-- Sequential big-step interpreter for `Stmt`.  `sink i` tells whether the
`i`-th separator write succeeds; the C code ignores the result of `printk`,
so the sink outcome influences only the `delivered` field.  In a sequential
execution the mutex is always free, so `lock`/`unlock` do not change the
barrier-visible state. -/
def execSeq (sink : Nat → Bool) : Stmt → BarrierState → BarrierState
  | Stmt.atomicInc, s => { s with count := s.count + 1 }
  | Stmt.lock, s => s
  | Stmt.unlock, s => s
  | Stmt.atomicSet v, s => { s with count := v }
  | Stmt.emitSep, s =>
      { s with emits := s.emits + 1,
               delivered := s.delivered + (if sink s.emits then 1 else 0) }
  | Stmt.ifCountGe n t, s => if n ≤ s.count then execSeq sink t s else s
  | Stmt.seq a b, s => execSeq sink b (execSeq sink a s)

/-- A sink that accepts every separator write. -/
def sinkOk : Nat → Bool := fun _ => true

/-- One call of `sync_log_complete_cycle` (the barrier's `arrive()`). -/
def arrive (sink : Nat → Bool) : BarrierState → BarrierState :=
  execSeq sink sync_log_complete_cycle

/-- State of a freshly constructed barrier: `sync_counter = ATOMIC_INIT(0)`,
nothing written. -/
def freshBarrier : BarrierState := ⟨0, 0, 0⟩

/-- `K` sequential `arrive()` calls on a fresh barrier. -/
def runArrives (sink : Nat → Bool) : Nat → BarrierState
  | 0 => freshBarrier
  | k + 1 => arrive sink (runArrives sink k)

/-- Does a statement contain the counter reset `atomic_set(&sync_counter, 0)`
anywhere? -/
def hasReset : Stmt → Bool
  | Stmt.atomicSet v => v == 0
  | Stmt.ifCountGe _ t => hasReset t
  | Stmt.seq a b => hasReset a || hasReset b
  | _ => false

/-- Does a statement contain a counter reset that is NOT guarded by a
counter-threshold test (`ifCountGe`)?  A reset nested inside an `ifCountGe`
is considered guarded by that re-check. -/
def hasUnguardedReset : Stmt → Bool
  | Stmt.atomicSet v => v == 0
  | Stmt.seq a b => hasUnguardedReset a || hasUnguardedReset b
  | _ => false

/-- The fire path of the barrier: the body of the (first) threshold test. -/
def fireBranch : Stmt → Option Stmt
  | Stmt.ifCountGe _ t => some t
  | Stmt.seq a b => (fireBranch a).orElse (fun _ => fireBranch b)
  | _ => none

/-- Formalisation of the claimed fire-path shape: the fire branch begins by
acquiring the separator lock, and every counter reset performed after the
lock is guarded by a re-check of the counter against the threshold. -/
def rechecksUnderLock (p : Stmt) : Bool :=
  match fireBranch p with
  | some (Stmt.seq Stmt.lock rest) => hasReset rest && !hasUnguardedReset rest
  | _ => false

/-- Global state for interleaved executions of `sync_log_complete_cycle` by
several threads: the shared counter, the number of separator writes, the
holder of `sync_mutex` (if any), and each thread's remaining statements. -/
structure CState where
  count : Nat
  emits : Nat
  lockHolder : Option Nat
  threads : List (List Stmt)
deriving DecidableEq, Repr

/-- One scheduler step: thread `t` (if it exists and has work) executes the
head of its continuation.  `seq` decomposes into its components; `ifCountGe`
performs the atomic read and branches; `lock` succeeds only when the mutex is
free, otherwise the thread stays blocked and the state is unchanged. -/
def cstep (s : CState) (t : Nat) : CState :=
  match s.threads.get? t with
  | none => s
  | some [] => s
  | some (st :: rest) =>
    match st with
    | Stmt.seq a b => { s with threads := s.threads.set t (a :: b :: rest) }
    | Stmt.atomicInc =>
        { s with count := s.count + 1, threads := s.threads.set t rest }
    | Stmt.ifCountGe n tb =>
        if n ≤ s.count then { s with threads := s.threads.set t (tb :: rest) }
        else { s with threads := s.threads.set t rest }
    | Stmt.lock =>
        match s.lockHolder with
        | none => { s with lockHolder := some t, threads := s.threads.set t rest }
        | some _ => s
    | Stmt.unlock =>
        { s with lockHolder := none, threads := s.threads.set t rest }
    | Stmt.atomicSet v =>
        { s with count := v, threads := s.threads.set t rest }
    | Stmt.emitSep =>
        { s with emits := s.emits + 1, threads := s.threads.set t rest }

/-- Run a schedule (a list of thread indices) from a state. -/
def crun (sched : List Nat) (s : CState) : CState := sched.foldl cstep s

/-- Three threads, each about to perform one `arrive()` on a fresh barrier. -/
def cinit3 : CState :=
  ⟨0, 0, none,
   [[sync_log_complete_cycle], [sync_log_complete_cycle], [sync_log_complete_cycle]]⟩

/-- A schedule in which all three arrivals increment the counter before any
of them performs its threshold read: every thread then reads `count = 3`,
and — the reset not being re-checked under the lock — each one in turn takes
the mutex, resets the counter and emits a separator. -/
def raceSchedule : List Nat :=
  [0, 0, 1, 1, 2, 2, 0, 1, 2] ++
    (List.replicate 7 0 ++ (List.replicate 7 1 ++ List.replicate 7 2))

-- Worker loop bodies.  Each worker in the two demos runs an infinite loop;
-- one iteration (one tick) is embedded as the list of its observable steps,
-- in program order.  `write s` is a `printk` with format string `s`,
-- `pinToggle`/`pinGet`/`pinSet` are the gpio calls (pins identified by led
-- index 0, 1, 2), `arriveStep` is the call to `sync_log_complete_cycle`, and
-- `sleepMs n` is `k_sleep(K_MSEC(n))` or `k_msleep(n)`.

/-- One observable step of a worker's loop body. -/
inductive LoopStep where
  | write : String → LoopStep
  | pinToggle : Nat → LoopStep
  | pinGet : Nat → LoopStep
  | pinSet : Nat → Bool → LoopStep
  | arriveStep : LoopStep
  | sleepMs : Nat → LoopStep
deriving DecidableEq, Repr

/-- Loop body of `thread1_fn` in src/simple_thread/src/main.c. -/
def thread1_fn_body : List LoopStep :=
  [LoopStep.write "[T1] Low-priority thread (P:-1) running...\n",
   LoopStep.arriveStep,
   LoopStep.sleepMs 700]

/-- Loop body of `thread2_fn` in src/simple_thread/src/main.c. -/
def thread2_fn_body : List LoopStep :=
  [LoopStep.write "[T2] High-priority thread (P:-2) working...\n",
   LoopStep.arriveStep,
   LoopStep.sleepMs 1200]

/-- Loop body of the `while (1)` loop at the end of `main` in
src/simple_thread/src/main.c (the main thread participates as a worker). -/
def main_loop_body : List LoopStep :=
  [LoopStep.write "[MAIN] Monitoring system...\n",
   LoopStep.arriveStep,
   LoopStep.sleepMs 2000]

/-- Loop body of `led0_thread` in src/thread_1/src/main.c. -/
def led0_thread_body : List LoopStep :=
  [LoopStep.pinToggle 0,
   LoopStep.pinGet 0,
   LoopStep.write "[T1] LED0 is now %s | [T1] sleep 500ms\n",
   LoopStep.arriveStep,
   LoopStep.sleepMs 500]

/-- Loop body of `led1_thread` in src/thread_1/src/main.c. -/
def led1_thread_body : List LoopStep :=
  [LoopStep.pinToggle 1,
   LoopStep.pinGet 1,
   LoopStep.write "[T2] LED1 is now %s | [T2] sleep 200ms\n",
   LoopStep.arriveStep,
   LoopStep.sleepMs 200]

/-- Loop body of `led2_thread` (the burst worker T3) in
src/thread_1/src/main.c: LED2 on, first write, 100 ms sleep, LED2 off,
second write, arrive, 800 ms rest. -/
def led2_thread_body : List LoopStep :=
  [LoopStep.pinSet 2 true,
   LoopStep.write "[T3] Blink 1: LED2 ON | ",
   LoopStep.sleepMs 100,
   LoopStep.pinSet 2 false,
   LoopStep.write "[T3] Blink 2: LED2 OFF | [T3] sleep 800ms\n",
   LoopStep.arriveStep,
   LoopStep.sleepMs 800]

/-- All six worker loop bodies across the two demo configurations. -/
def workerBodies : List (List LoopStep) :=
  [thread1_fn_body, thread2_fn_body, main_loop_body,
   led0_thread_body, led1_thread_body, led2_thread_body]

/-- The strings a loop body writes to the sink, in order. -/
def writesOf (b : List LoopStep) : List String :=
  b.filterMap fun s =>
    match s with
    | LoopStep.write str => some str
    | _ => none

/-- Is the step an `arrive()`? -/
def isArrive (s : LoopStep) : Bool :=
  match s with
  | LoopStep.arriveStep => true
  | _ => false

/-- Is the step a sleep? -/
def isSleep (s : LoopStep) : Bool :=
  match s with
  | LoopStep.sleepMs _ => true
  | _ => false

/-- Is the step a sink write? -/
def isWrite (s : LoopStep) : Bool :=
  match s with
  | LoopStep.write _ => true
  | _ => false

/-- Claimed suspension discipline for a loop body: no sleep occurs before the
`arrive()` call, and the body's only sleep is its final step, the period
sleep. -/
def okSuspension (b : List LoopStep) : Bool :=
  (b.takeWhile (fun s => !isArrive s)).all (fun s => !isSleep s) &&
  b.countP isSleep == 1 &&
  (match b.reverse with
   | LoopStep.sleepMs _ :: _ => true
   | _ => false)

/-- Claimed arrive discipline for a loop body: exactly one `arrive()` per
iteration, placed immediately before the final period sleep (hence after
every write of the action). -/
def okArriveOnce (b : List LoopStep) : Bool :=
  b.countP isArrive == 1 &&
  (match b.reverse with
   | LoopStep.sleepMs _ :: LoopStep.arriveStep :: _ => true
   | _ => false)

/-- Startup writes of `main` in src/simple_thread/src/main.c (before its
worker loop). -/
def simpleMainStartupWrites : List String :=
  ["[MAIN] Starting Preemptive Thread Demo\n",
   "[MAIN] Thread 1 created (P:-1)\n",
   "[MAIN] Thread 2 created (P:-2)\n"]

/-- Writes of `main` and `init_led` in src/thread_1/src/main.c (all paths:
the banner, the two possible init error lines, the fatal-init line, and the
success-path startup lines). -/
def ledMainWrites : List String :=
  ["[MAIN] Starting LED thread demo\n",
   "[INIT] Error: LED device not ready\n",
   "[INIT] Error configuring pin %d\n",
   "[MAIN] LED initialization failed\n",
   "[LED0] Initialized on pin %d\n",
   "[LED1] Initialized on pin %d\n",
   "[LED2] Initialized on pin %d\n\n",
   "[T1] LED0 thread started (500ms toggle)\n",
   "[T2] LED1 thread started (200ms toggle)\n",
   "[T3] LED2 thread started (burst 2x then 800ms rest)\n\n"]

/-- The separator line the barrier writes: `printk("\n")`. -/
def separatorWrite : String := "\n"

/-- Every string the two programs pass to the sink in a single write call:
worker loop writes, startup/init writes, and the barrier's separator. -/
def allProgramWrites : List String :=
  (workerBodies.map writesOf).flatten ++
    simpleMainStartupWrites ++ ledMainWrites ++ [separatorWrite]

/-- A write is a whole newline-terminated line when its last character is
the newline. -/
def endsWithNewline (s : String) : Bool := s.data.getLast? == some '\n'

-- LED demo initialization (src/thread_1/src/main.c, `init_led` lines 68-85
-- and `main` lines 131-165).  The gpio environment is abstracted by a
-- `GpioSpec` per LED: the device identity behind `led_spec->port`, whether
-- `device_is_ready(led_spec->port)` holds, the pin number `led_spec->pin`,
-- and the value `gpio_pin_configure` would return for this spec.

/-- A gpio operation performed on the hardware: `configure dev pin` is
`gpio_pin_configure(dev, pin, ...)`, `setLevel dev pin v` is
`gpio_pin_set(dev, pin, v)`. -/
inductive GpioOp where
  | configure : Nat → Nat → GpioOp
  | setLevel : Nat → Nat → Nat → GpioOp
deriving DecidableEq, Repr

/-- Environment of one `gpio_dt_spec`: device identity, readiness of that
device, pin number, and the result `gpio_pin_configure` returns on it. -/
structure GpioSpec where
  port : Nat
  ready : Bool
  pin : Nat
  configureRet : Int
deriving DecidableEq, Repr

/-- The caller-side output variables of `init_led`: the global
`ledN_dev` pointer (none = still NULL) and the global `ledN_pin` int. -/
structure LedVars where
  dev : Option Nat
  pin : Nat
deriving DecidableEq, Repr

/-- Initial values of the global variables `ledN_dev` (NULL) and
`ledN_pin` (zero-initialised). -/
def ledVars0 : LedVars := ⟨none, 0⟩

/-- Result of one `init_led` call: its return value, the (possibly updated)
caller variables, the log lines it printed, and the gpio operations it
performed. -/
structure InitLedResult where
  ret : Int
  vars : LedVars
  log : List String
  ops : List GpioOp
deriving DecidableEq, Repr

/-- `init_led(dev, pin, spec)`: if the device is not ready, print the error
and return -1 leaving `*dev`/`*pin` untouched; otherwise store the port and
pin into the caller's variables, configure the pin (returning the configure
error if negative, after printing the error line), else drive the pin low
and return 0. -/
def init_led (vars : LedVars) (spec : GpioSpec) : InitLedResult :=
  if !spec.ready then
    ⟨-1, vars, ["[INIT] Error: LED device not ready\n"], []⟩
  else if spec.configureRet < 0 then
    ⟨spec.configureRet, ⟨some spec.port, spec.pin⟩,
     ["[INIT] Error configuring pin %d\n"],
     [GpioOp.configure spec.port spec.pin]⟩
  else
    ⟨0, ⟨some spec.port, spec.pin⟩, [],
     [GpioOp.configure spec.port spec.pin,
      GpioOp.setLevel spec.port spec.pin 0]⟩

/-- The three devicetree specs the LED demo's `main` initializes, in
declaration order led0, led1, led2. -/
structure LedMainEnv where
  led0 : GpioSpec
  led1 : GpioSpec
  led2 : GpioSpec
deriving DecidableEq, Repr

/-- Observable outcome of the LED demo's `main`: its log, the gpio
operations performed, the final values of the three global dev/pin variable
pairs, and the entry points of the threads it spawned. -/
structure LedMainOut where
  log : List String
  ops : List GpioOp
  led0v : LedVars
  led1v : LedVars
  led2v : LedVars
  spawned : List String
deriving DecidableEq, Repr

/-- `main` of src/thread_1/src/main.c up to its return: banner; the
short-circuit `init_led(led0) < 0 || init_led(led1) < 0 || init_led(led2) < 0`
(later calls are not evaluated once one fails); on failure, the fatal log
line and return with no thread created; on success, the three Initialized
lines and the three `k_thread_create` calls with their started lines. -/
def ledDemoMain (env : LedMainEnv) : LedMainOut :=
  let r0 := init_led ledVars0 env.led0
  if r0.ret < 0 then
    ⟨"[MAIN] Starting LED thread demo\n" :: r0.log ++
       ["[MAIN] LED initialization failed\n"],
     r0.ops, r0.vars, ledVars0, ledVars0, []⟩
  else
    let r1 := init_led ledVars0 env.led1
    if r1.ret < 0 then
      ⟨"[MAIN] Starting LED thread demo\n" :: (r0.log ++ r1.log) ++
         ["[MAIN] LED initialization failed\n"],
       r0.ops ++ r1.ops, r0.vars, r1.vars, ledVars0, []⟩
    else
      let r2 := init_led ledVars0 env.led2
      if r2.ret < 0 then
        ⟨"[MAIN] Starting LED thread demo\n" :: (r0.log ++ r1.log ++ r2.log) ++
           ["[MAIN] LED initialization failed\n"],
         r0.ops ++ r1.ops ++ r2.ops, r0.vars, r1.vars, r2.vars, []⟩
      else
        ⟨"[MAIN] Starting LED thread demo\n" :: (r0.log ++ r1.log ++ r2.log) ++
           ["[LED0] Initialized on pin %d\n",
            "[LED1] Initialized on pin %d\n",
            "[LED2] Initialized on pin %d\n\n",
            "[T1] LED0 thread started (500ms toggle)\n",
            "[T2] LED1 thread started (200ms toggle)\n",
            "[T3] LED2 thread started (burst 2x then 800ms rest)\n\n"],
         r0.ops ++ r1.ops ++ r2.ops, r0.vars, r1.vars, r2.vars,
         ["led0_thread", "led1_thread", "led2_thread"]⟩

/-- One of the three `init_led` calls would fail: the claim's hypothesis
that initializing some pin fails. -/
def anyInitFails (env : LedMainEnv) : Prop :=
  (init_led ledVars0 env.led0).ret < 0 ∨
  (init_led ledVars0 env.led1).ret < 0 ∨
  (init_led ledVars0 env.led2).ret < 0

instance (env : LedMainEnv) : Decidable (anyInitFails env) := by
  unfold anyInitFails; infer_instance

/-- Is the string one of the `[INIT]` error lines? -/
def isInitError (s : String) : Bool :=
  s == "[INIT] Error: LED device not ready\n" ||
    s == "[INIT] Error configuring pin %d\n"

/-- The status lines the six workers write from their loops. -/
def workerLoopWrites : List String := (workerBodies.map writesOf).flatten

/-- Does the gpio operation touch the device and pin of the given spec? -/
def touches (op : GpioOp) (spec : GpioSpec) : Bool :=
  match op with
  | GpioOp.configure d p => d == spec.port && p == spec.pin
  | GpioOp.setLevel d p _ => d == spec.port && p == spec.pin

/-- An environment in which led0 and led2 initialize fine but led1's device
is not ready, used to instantiate the init-failure theorems. -/
def ledEnvNotReady1 : LedMainEnv :=
  ⟨⟨10, true, 4, 0⟩, ⟨11, false, 5, 0⟩, ⟨12, true, 6, 0⟩⟩

-- Helper lemmas about the sequential barrier.

/-- Unfolding one `arrive()`: the counter is incremented; when the new value
reaches the threshold 3 the counter is reset to 0 and one separator write is
issued, otherwise the state only records the increment. -/
theorem arrive_eq (sink : Nat → Bool) (s : BarrierState) :
    arrive sink s =
      if 3 ≤ s.count + 1 then
        { count := 0, emits := s.emits + 1,
          delivered := s.delivered + (if sink s.emits then 1 else 0) }
      else { s with count := s.count + 1 } := by
  simp [arrive, sync_log_complete_cycle, execSeq]

/-- After `K` sequential arrivals on a fresh barrier, the counter reads
`K % 3` and `K / 3` separator writes have been issued, for any sink. -/
theorem runArrives_state (sink : Nat → Bool) (K : Nat) :
    (runArrives sink K).count = K % 3 ∧ (runArrives sink K).emits = K / 3 := by
  induction K with
  | zero => simp [runArrives, freshBarrier]
  | succ k ih =>
    obtain ⟨hc, he⟩ := ih
    simp only [runArrives, arrive_eq, hc, he]
    split
    · constructor
      · simpa using by omega
      · simpa using by omega
    · constructor
      · simpa using by omega
      · simpa using by omega

-- Claim theorems.

/-- C1 counterexample: the fire path of `sync_log_complete_cycle` does NOT
re-check the counter under the lock before resetting it — contrary to the
claim, the reset `atomic_set(&sync_counter, 0)` follows `k_mutex_lock`
unconditionally. -/
theorem c1_no_recheck_counterexample :
    ¬ rechecksUnderLock sync_log_complete_cycle = true := by decide

/-- C1 (amended): on the fire path the implementation acquires the separator
lock but performs no re-check under it — the counter reset is unguarded
inside the locked region — and consequently an interleaving of 3 concurrent
arrivals at participants = 3 can emit 3 separators instead of one. -/
theorem c1_fire_path_no_recheck :
    (∃ rest, fireBranch sync_log_complete_cycle = some (Stmt.seq Stmt.lock rest) ∧
       hasReset rest = true ∧ hasUnguardedReset rest = true) ∧
    (crun raceSchedule cinit3).emits = 3 ∧ (crun raceSchedule cinit3).count = 0 :=
  ⟨⟨Stmt.seq (Stmt.atomicSet 0) (Stmt.seq Stmt.emitSep Stmt.unlock),
    by decide, by decide, by decide⟩, by decide, by decide⟩

/-- C2: `K` sequential `arrive()` calls on a fresh barrier with
participants = 3 issue exactly `⌊K / 3⌋` separator writes. -/
theorem c2_separator_count (K : Nat) : (runArrives sinkOk K).emits = K / 3 :=
  (runArrives_state sinkOk K).2

/-- C3: after every sequential `arrive()` return the counter satisfies
`0 ≤ count < 3`; it never remains at or above the participant count across a
call boundary. -/
theorem c3_count_invariant (K : Nat) :
    0 ≤ (runArrives sinkOk K).count ∧ (runArrives sinkOk K).count < 3 := by
  have h := (runArrives_state sinkOk K).1
  omega

/-- C6: the counter reset on the firing arrival does not depend on the sink:
for every pattern of separator-write failures, 6 arrivals at participants = 3
leave `count = 0` with exactly 2 separator writes attempted, and with the
always-failing sink nothing is delivered yet the state is identical. -/
theorem c6_reset_despite_sink_failure (sink : Nat → Bool) :
    (runArrives sink 6).count = 0 ∧ (runArrives sink 6).emits = 2 ∧
    (runArrives (fun _ => false) 6).delivered = 0 := by
  have h := runArrives_state sink 6
  refine ⟨by omega, by omega, by decide⟩

/-- C8: every worker loop body in both demos performs exactly one `arrive()`
per iteration, placed after all of the action's writes and immediately before
the final period sleep; the burst worker T3 writes twice per tick but still
arrives once. -/
theorem c8_arrive_once_per_tick :
    workerBodies.all okArriveOnce = true ∧
    (writesOf led2_thread_body).length = 2 := by decide

/-- C9: three sequential arrivals on a fresh barrier emit exactly one
separator and return the counter to its fresh value, so `arrive` composed
3 times is a round trip on the counter, while `arrive` itself is not
idempotent. -/
theorem c9_round_trip :
    (runArrives sinkOk 3).count = freshBarrier.count ∧
    (runArrives sinkOk 3).emits = 1 ∧
    arrive sinkOk (arrive sinkOk freshBarrier) ≠ arrive sinkOk freshBarrier := by
  decide

/-- C4 counterexample: the burst worker T3's first write,
`printk("[T3] Blink 1: LED2 ON | ")`, is a write the program makes to the
sink that is not newline-terminated, refuting the claim that every
individual write passes a complete newline-terminated line. -/
theorem c4_partial_line_counterexample :
    "[T3] Blink 1: LED2 ON | " ∈ allProgramWrites ∧
    endsWithNewline "[T3] Blink 1: LED2 ON | " = false ∧
    ¬ allProgramWrites.all endsWithNewline = true := by decide

/-- C4 (amended): every write either program passes to the sink is a
newline-terminated line except T3's first burst write, which lacks the
newline; T3's tick line is assembled from that write followed by its second,
newline-terminated write. -/
theorem c4_whole_lines_except_t3 :
    allProgramWrites.all
      (fun s => s == "[T3] Blink 1: LED2 ON | " || endsWithNewline s) = true ∧
    writesOf led2_thread_body =
      ["[T3] Blink 1: LED2 ON | ",
       "[T3] Blink 2: LED2 OFF | [T3] sleep 800ms\n"] := by decide

/-- C5 counterexample: `led2_thread`, a worker of the LED demo, has a
`k_msleep(100)` inside its action before `arrive()`, so its loop body
violates the claimed single-final-sleep discipline. -/
theorem c5_burst_sleep_counterexample :
    led2_thread_body ∈ workerBodies ∧
    okSuspension led2_thread_body = false := by decide

/-- C5 (amended): five of the six workers sleep only in the single final
period sleep after `arrive()`; the burst worker T3 additionally performs
exactly one sleep — 100 ms — before its `arrive()`, between its two writes,
and still ends its iteration with the 800 ms period sleep right after
`arrive()`. -/
theorem c5_suspension_discipline :
    ([thread1_fn_body, thread2_fn_body, main_loop_body,
      led0_thread_body, led1_thread_body].all okSuspension = true) ∧
    (led2_thread_body.takeWhile (fun s => !isArrive s)).countP isSleep = 1 ∧
    LoopStep.sleepMs 100 ∈ led2_thread_body.takeWhile (fun s => !isArrive s) ∧
    (match led2_thread_body.reverse with
     | LoopStep.sleepMs 800 :: LoopStep.arriveStep :: _ => true
     | _ => false) = true := by decide


/-- Shape of the LED demo's observable outcome when some `init_led` call
fails: the log is exactly the banner, one of the two `[INIT]` error lines,
and the fatal line, and no worker thread is spawned. -/
theorem ledDemoMain_fail_shape (env : LedMainEnv) (h : anyInitFails env) :
    ((ledDemoMain env).log =
       ["[MAIN] Starting LED thread demo\n",
        "[INIT] Error: LED device not ready\n",
        "[MAIN] LED initialization failed\n"] ∨
     (ledDemoMain env).log =
       ["[MAIN] Starting LED thread demo\n",
        "[INIT] Error configuring pin %d\n",
        "[MAIN] LED initialization failed\n"]) ∧
    (ledDemoMain env).spawned = [] := by
  rcases env with ⟨⟨p0, rd0, pn0, c0⟩, ⟨p1, rd1, pn1, c1⟩, ⟨p2, rd2, pn2, c2⟩⟩
  simp only [anyInitFails, ledDemoMain, init_led] at h ⊢
  split_ifs at h ⊢ <;> simp_all

/-- C7: whenever one of the three `init_led` calls fails, the LED demo's
`main` spawns no worker thread and its log carries exactly one `[INIT]`
error line and exactly one `[MAIN] LED initialization failed` line, with no
worker status line and no separator ever emitted. -/
theorem c7_init_failure_is_fatal (env : LedMainEnv) (h : anyInitFails env) :
    (ledDemoMain env).spawned = [] ∧
    (ledDemoMain env).log.countP isInitError = 1 ∧
    (ledDemoMain env).log.countP
      (fun s => s == "[MAIN] LED initialization failed\n") = 1 ∧
    (ledDemoMain env).log.all (fun s => !(workerLoopWrites.contains s)) = true ∧
    (ledDemoMain env).log.countP (fun s => s == separatorWrite) = 0 := by
  obtain ⟨hlog, hsp⟩ := ledDemoMain_fail_shape env h
  refine ⟨hsp, ?_⟩
  rcases hlog with hl | hl <;> rw [hl] <;>
    exact ⟨by decide, by decide, by decide, by decide⟩

/-- C7 witness: in the environment where led1's device is not ready, the
initialization fails and the LED demo's `main` behaves as C7 states. -/
theorem c7_witness :
    anyInitFails ledEnvNotReady1 ∧
    ((ledDemoMain ledEnvNotReady1).spawned = [] ∧
     (ledDemoMain ledEnvNotReady1).log.countP isInitError = 1 ∧
     (ledDemoMain ledEnvNotReady1).log.countP
       (fun s => s == "[MAIN] LED initialization failed\n") = 1 ∧
     (ledDemoMain ledEnvNotReady1).log.all
       (fun s => !(workerLoopWrites.contains s)) = true ∧
     (ledDemoMain ledEnvNotReady1).log.countP
       (fun s => s == separatorWrite) = 0) :=
  ⟨by decide, c7_init_failure_is_fatal ledEnvNotReady1 (by decide)⟩

/-- C10: the LED demo initializes pins in declaration order with
short-circuiting — if an earlier `init_led` fails, every gpio operation
performed touches only the already-attempted specs — and on the
device-not-ready path the caller's dev/pin variables for that LED keep
their initial values. -/
theorem c10_short_circuit_frame (env : LedMainEnv) :
    ((init_led ledVars0 env.led0).ret < 0 →
       (ledDemoMain env).ops.all (fun op => touches op env.led0) = true) ∧
    (¬ (init_led ledVars0 env.led0).ret < 0 →
       (init_led ledVars0 env.led1).ret < 0 →
       (ledDemoMain env).ops.all
         (fun op => touches op env.led0 || touches op env.led1) = true) ∧
    (env.led0.ready = false → (ledDemoMain env).led0v = ledVars0) ∧
    (¬ (init_led ledVars0 env.led0).ret < 0 → env.led1.ready = false →
       (ledDemoMain env).led1v = ledVars0) ∧
    (¬ (init_led ledVars0 env.led0).ret < 0 →
       ¬ (init_led ledVars0 env.led1).ret < 0 →
       env.led2.ready = false → (ledDemoMain env).led2v = ledVars0) := by
  rcases env with ⟨⟨p0, rd0, pn0, c0⟩, ⟨p1, rd1, pn1, c1⟩, ⟨p2, rd2, pn2, c2⟩⟩
  simp only [ledDemoMain, init_led]
  split_ifs <;> simp_all [touches]

/-- C10 witness: with led0 fine and led1's device not ready, led0 succeeds,
led1 fails, every gpio operation touches only led0 or led1 (none touches
led2), and led1's dev/pin globals keep their initial values. -/
theorem c10_witness :
    (¬ (init_led ledVars0 ledEnvNotReady1.led0).ret < 0) ∧
    (init_led ledVars0 ledEnvNotReady1.led1).ret < 0 ∧
    ledEnvNotReady1.led1.ready = false ∧
    (ledDemoMain ledEnvNotReady1).ops.all
      (fun op => touches op ledEnvNotReady1.led0 ||
        touches op ledEnvNotReady1.led1) = true ∧
    (ledDemoMain ledEnvNotReady1).led1v = ledVars0 :=
  ⟨by decide, by decide, by decide,
   (c10_short_circuit_frame ledEnvNotReady1).2.1 (by decide) (by decide),
   (c10_short_circuit_frame ledEnvNotReady1).2.2.2.1 (by decide) (by decide)⟩
